import Mathlib

/-!
# Verification of the attribution merge engine

Shallow embedding of the cost/revenue merge pipeline
(`integrate_data.merge_campaign_data`, `integrate_data.print_summary`,
`system1_client.System1Client._aggregate_hourly_data`).

Currency amounts and rate metrics are modelled as exact rationals (ℚ);
Python `int(...)` truncation toward zero is modelled by `pytrunc`.
-/

/-- Python `int(q)`: truncation toward zero of a rational. -/
def pytrunc (q : ℚ) : ℤ :=
  if q < 0 then -(Int.floor (-q)) else Int.floor q

/-- Python `pat in s`: substring containment on strings. -/
def strContains (s pat : String) : Bool :=
  decide (pat.data <:+: s.data)

/-- One row of the hourly revenue CSV / API response, after normalization
    (`system1_client.parse_csv_file` loop body). -/
structure RevenueRecord where
  ad_group_id : String
  date : String
  hour : ℕ
  revenue : ℚ
  widget_clicks : ℤ
  widget_searches : ℤ
deriving DecidableEq, Repr

/-- A per-(ad_group_id, date) revenue aggregate: the value stored in
    `_aggregate_hourly_data`'s defaultdict. -/
structure RevenueAggregate where
  revenue : ℚ
  widget_clicks : ℤ
  widget_searches : ℤ
deriving DecidableEq, Repr

def emptyAggregate : RevenueAggregate := ⟨0, 0, 0⟩

def recKey (r : RevenueRecord) : String × String := (r.ad_group_id, r.date)

/-- `aggregated[key]['revenue'] += ...` etc. for one hourly row. -/
def addHourly (a : RevenueAggregate) (r : RevenueRecord) : RevenueAggregate :=
  { revenue := a.revenue + r.revenue
    widget_clicks := a.widget_clicks + r.widget_clicks
    widget_searches := a.widget_searches + r.widget_searches }

/-- The accumulation loop of `_aggregate_hourly_data`, as a fold over the
    hourly rows threading the (total) map. -/
def aggFold : List RevenueRecord → ((String × String) → RevenueAggregate) →
    ((String × String) → RevenueAggregate)
  | [], m => m
  | r :: rs, m =>
      aggFold rs (fun k => if k = recKey r then addHourly (m k) r else m k)

/-- `_aggregate_hourly_data`: value of the aggregation map at a key
    (`emptyAggregate` off the populated key set). -/
def aggregate_hourly_data (l : List RevenueRecord) :
    (String × String) → RevenueAggregate :=
  aggFold l (fun _ => emptyAggregate)

/-- The key set of `_aggregate_hourly_data`'s map. -/
def aggKeys (l : List RevenueRecord) : List (String × String) :=
  (l.map recKey).dedup


/-! ## The merge pipeline (`integrate_data.merge_campaign_data`) -/

/-- One Meta ad-level cost row as consumed by the merge
    (`meta_record` in `merge_campaign_data`). -/
structure CostRecord where
  campaign_id : String
  campaign_name : String
  ad_set_id : String
  ad_set_name : String
  ad_id : String
  ad_name : String
  date : String
  spend : ℚ
  link_clicks : ℕ
  cpc : ℚ
  ctr : ℚ
  searches : ℕ
  purchases : ℕ
deriving DecidableEq, Repr

/-- One System1 daily revenue row as consumed by the merge
    (output of `_aggregate_hourly_data`, i.e. `record` in the
    `system1_lookup` build loop). -/
structure S1Record where
  ad_group_id : String
  date : String
  revenue : ℚ
  widget_clicks : ℤ
  widget_searches : ℤ
deriving DecidableEq, Repr

/-- `(record['ad_group_id'], record['date'])` -/
def s1Key (r : S1Record) : String × String := (r.ad_group_id, r.date)

/-- `system1_lookup[key] = record` builds a dict where a later record with the
    same key overwrites an earlier one: value at a key is the last record. -/
def s1lookup (s1 : List S1Record) (k : String × String) : Option S1Record :=
  (s1.filter (fun r => s1Key r = k)).getLast?

/-- Key set of `system1_lookup`. -/
def s1Keys (s1 : List S1Record) : List (String × String) :=
  (s1.map s1Key).dedup

/-- One record per distinct key of `system1_lookup`:
    `system1_lookup.items()` values. -/
def lookupEntries (s1 : List S1Record) : List S1Record :=
  (s1Keys s1).filterMap (s1lookup s1)

/-- Output record of the merge. -/
structure MergedRecord where
  campaign_id : String
  campaign_name : String
  ad_set_id : String
  ad_set_name : String
  ad_id : String
  ad_name : String
  market : String
  date : String
  spend : ℚ
  revenue : ℚ
  profit : ℚ
  roas : ℚ
  link_clicks : ℕ
  widget_clicks : ℤ
  widget_searches : ℤ
  searches : ℕ
  purchases : ℕ
  meta_cpc : ℚ
  meta_ctr : ℚ
  widget_ctr : ℚ
  rpc : ℚ
deriving DecidableEq, Repr

/-- Group key of the Meta ads: `(record['ad_set_id'], record['date'])`. -/
def groupKey (r : CostRecord) : String × String := (r.ad_set_id, r.date)

/-- Distinct group keys (`adset_groups` key set). -/
def groupKeys (meta : List CostRecord) : List (String × String) :=
  (meta.map groupKey).dedup

/-- `adset_groups[key]['ads']`: the group's member ads in input order. -/
def groupAds (meta : List CostRecord) (k : String × String) : List CostRecord :=
  meta.filter (fun r => groupKey r = k)

/-- `adset_groups[key]['total_clicks']`. -/
def groupTotalClicks (meta : List CostRecord) (k : String × String) : ℕ :=
  ((groupAds meta k).map (·.link_clicks)).sum

/-- `market = 'BR' if 'BRA_' in ad_set_name else ('MX' if 'MEX_' in ad_set_name
    else 'OTHER')` — the hard-coded market tagging of the merge. -/
def marketOf (ad_set_name : String) : String :=
  if strContains ad_set_name "BRA_" then "BR"
  else if strContains ad_set_name "MEX_" then "MX"
  else "OTHER"

/-- The body of the attribution loop: builds one MergedRecord for one member
    ad of a group, given the group's System1 lookup result and total clicks. -/
def mkMerged (s1rec : Option S1Record) (total_clicks : ℕ)
    (k : String × String) (m : CostRecord) : MergedRecord :=
  let s1_revenue : ℚ := match s1rec with | some r => r.revenue | none => 0
  let s1_widget_clicks : ℤ := match s1rec with | some r => r.widget_clicks | none => 0
  let s1_widget_searches : ℤ := match s1rec with | some r => r.widget_searches | none => 0
  let share : ℚ := if total_clicks > 0 then (m.link_clicks : ℚ) / (total_clicks : ℚ) else 0
  let revenue := s1_revenue * share
  let widget_clicks := pytrunc ((s1_widget_clicks : ℚ) * share)
  let widget_searches := pytrunc ((s1_widget_searches : ℚ) * share)
  { campaign_id := m.campaign_id
    campaign_name := m.campaign_name
    ad_set_id := k.1
    ad_set_name := m.ad_set_name
    ad_id := m.ad_id
    ad_name := m.ad_name
    market := marketOf m.ad_set_name
    date := k.2
    spend := m.spend
    revenue := revenue
    profit := revenue - m.spend
    roas := if m.spend > 0 then revenue / m.spend - 1 else 0
    link_clicks := m.link_clicks
    widget_clicks := widget_clicks
    widget_searches := widget_searches
    searches := m.searches
    purchases := m.purchases
    meta_cpc := m.cpc
    meta_ctr := m.ctr
    widget_ctr := if m.link_clicks > 0 then (widget_clicks : ℚ) / (m.link_clicks : ℚ) else 0
    rpc := if widget_clicks > 0 then revenue / (widget_clicks : ℚ) else 0 }

/-- Step 4 of the merge: one MergedRecord per Meta ad, grouped by ad set. -/
def attributedRecords (meta : List CostRecord) (s1 : List S1Record) :
    List MergedRecord :=
  (groupKeys meta).flatMap (fun k =>
    (groupAds meta k).map (mkMerged (s1lookup s1 k) (groupTotalClicks meta k) k))

/-! ## Orphan classification and redistribution -/

/-- The placeholder tokens tested by the orphan classifier. -/
def placeholderTokens : List String :=
  ["\x7b\x7badset.id\x7d\x7d", "\\N", "", "null", "undefined"]

/-- Python `str.isdigit` on ASCII data: nonempty and all characters digits. -/
def pyIsdigit (s : String) : Bool :=
  !s.data.isEmpty && s.data.all Char.isDigit

/-- `is_tracking_issue`: placeholder token or not a purely numeric string. -/
def isTrackingIssue (ad_group_id : String) : Bool :=
  ad_group_id ∈ placeholderTokens || !pyIsdigit ad_group_id

/-- `is_legitimate`: purely numeric and not a placeholder token. -/
def isLegitimate (ad_group_id : String) : Bool :=
  pyIsdigit ad_group_id && !(ad_group_id ∈ placeholderTokens)

/-- The tracking-failure orphan records collected in step 5. -/
def orphanRecords (meta : List CostRecord) (s1 : List S1Record) : List S1Record :=
  (lookupEntries s1).filter (fun r =>
    s1Key r ∉ groupKeys meta && r.revenue > 0 && isTrackingIssue r.ad_group_id)

/-- `orphan_revenue`: total tracking-failure orphan revenue. -/
def totalOrphanRevenue (meta : List CostRecord) (s1 : List S1Record) : ℚ :=
  ((orphanRecords meta s1).map (·.revenue)).sum

/-- Key set of `orphan_by_date`. -/
def orphanDates (meta : List CostRecord) (s1 : List S1Record) : List String :=
  ((orphanRecords meta s1).map (·.date)).dedup

/-- `orphan_by_date[date]['revenue']`. -/
def orphanRevenueOn (meta : List CostRecord) (s1 : List S1Record) (d : String) : ℚ :=
  (((orphanRecords meta s1).filter (fun r => r.date = d)).map (·.revenue)).sum

/-- `orphan_by_date[date]['widget_clicks']`. -/
def orphanWidgetClicksOn (meta : List CostRecord) (s1 : List S1Record) (d : String) : ℤ :=
  (((orphanRecords meta s1).filter (fun r => r.date = d)).map (·.widget_clicks)).sum

/-- `orphan_by_date[date]['widget_searches']`. -/
def orphanWidgetSearchesOn (meta : List CostRecord) (s1 : List S1Record) (d : String) : ℤ :=
  (((orphanRecords meta s1).filter (fun r => r.date = d)).map (·.widget_searches)).sum

/-- Updating one MergedRecord with its share of one date's orphan metrics
    (the inner loop of the distribution step, including the recomputation of
    the derived metrics). -/
def addOrphanShare (orev : ℚ) (owc ows : ℤ) (share : ℚ) (r : MergedRecord) :
    MergedRecord :=
  let revenue := r.revenue + orev * share
  let widget_clicks := r.widget_clicks + pytrunc ((owc : ℚ) * share)
  let widget_searches := r.widget_searches + pytrunc ((ows : ℚ) * share)
  { r with
    revenue := revenue
    widget_clicks := widget_clicks
    widget_searches := widget_searches
    profit := revenue - r.spend
    roas := if r.spend > 0 then revenue / r.spend - 1 else 0
    widget_ctr := if r.link_clicks > 0 then (widget_clicks : ℚ) / (r.link_clicks : ℚ) else 0
    rpc := if widget_clicks > 0 then revenue / (widget_clicks : ℚ) else 0 }

/-- Effect of the whole date-by-date distribution loop on one record of
    `merged_data`: a record is touched exactly by its own date's pass (dates
    partition the list; `link_clicks` and `date` are never mutated, so the
    date grouping and click totals seen by every pass equal those of the
    pre-distribution list `l`). -/
def redistOne (meta : List CostRecord) (s1 : List S1Record)
    (l : List MergedRecord) (r : MergedRecord) : MergedRecord :=
  if r.date ∈ orphanDates meta s1 then
    let dateRecords := l.filter (fun x => x.date = r.date)
    let total_clicks : ℕ := (dateRecords.map (·.link_clicks)).sum
    let share : ℚ :=
      if total_clicks > 0 then (r.link_clicks : ℚ) / (total_clicks : ℚ)
      else 1 / (dateRecords.length : ℚ)
    addOrphanShare (orphanRevenueOn meta s1 r.date)
      (orphanWidgetClicksOn meta s1 r.date)
      (orphanWidgetSearchesOn meta s1 r.date) share r
  else r

/-- Step 5 of the merge: distribute tracking-failure orphan revenue over the
    merged records, guarded by `orphan_revenue > 0`. -/
def redistribute (meta : List CostRecord) (s1 : List S1Record)
    (l : List MergedRecord) : List MergedRecord :=
  if 0 < totalOrphanRevenue meta s1 then l.map (redistOne meta s1 l) else l

/-- Step 6: the synthetic MergedRecord emitted for one legitimate orphan. -/
def mkLegitOrphan (r : S1Record) : MergedRecord :=
  { campaign_id := "UNKNOWN"
    campaign_name := "Unknown Campaign"
    ad_set_id := r.ad_group_id
    ad_set_name := "[S1 Only] " ++ r.ad_group_id
    ad_id := "UNKNOWN"
    ad_name := "Unknown Ad"
    market := "OTHER"
    date := r.date
    spend := 0
    revenue := r.revenue
    profit := r.revenue
    roas := 0
    link_clicks := 0
    widget_clicks := r.widget_clicks
    widget_searches := r.widget_searches
    searches := 0
    purchases := 0
    meta_cpc := 0
    meta_ctr := 0
    widget_ctr := 0
    rpc := if r.widget_clicks > 0 then r.revenue / (r.widget_clicks : ℚ) else 0 }

/-- Step 6 of the merge: records for the legitimate orphans, appended after
    redistribution. -/
def legitOrphanRecords (meta : List CostRecord) (s1 : List S1Record) :
    List MergedRecord :=
  ((lookupEntries s1).filter (fun r =>
      s1Key r ∉ groupKeys meta && r.revenue > 0 && isLegitimate r.ad_group_id)).map
    mkLegitOrphan

/-- `merge_campaign_data`, from the built groups and lookup onward (the
    fetching of the two sources is an excluded collaborator). -/
def merge_campaign_data (meta : List CostRecord) (s1 : List S1Record) :
    List MergedRecord :=
  redistribute meta s1 (attributedRecords meta s1) ++ legitOrphanRecords meta s1

/-! ## Summary reporter (`integrate_data.print_summary`) -/

def totalSpend (l : List MergedRecord) : ℚ := (l.map (·.spend)).sum

def totalRevenue (l : List MergedRecord) : ℚ := (l.map (·.revenue)).sum

def totalProfit (l : List MergedRecord) : ℚ := totalRevenue l - totalSpend l

/-- `avg_roas = (total_revenue / total_spend) if total_spend > 0 else 0.0`. -/
def avgRoas (l : List MergedRecord) : ℚ :=
  if totalSpend l > 0 then totalRevenue l / totalSpend l else 0

/-- Modelled from the spec: the caller-supplied region classifier of §4.3 —
    an ordered list of (substring, tag) rules, first match wins, default
    `"OTHER"`. The source has no such parameter (`merge_campaign_data` takes
    none); this definition exists to compare the spec's interface against the
    hard-coded `marketOf`. -/
def classifyRegion : List (String × String) → String → String
  | [], _ => "OTHER"
  | (pat, tag) :: rules, name =>
      if strContains name pat then tag else classifyRegion rules name

/-! ## Derived notions used by the statements -/

/-- `system1_record.get('revenue', 0.0)` on an optional lookup result. -/
def s1RevenueOf (o : Option S1Record) : ℚ :=
  match o with | some r => r.revenue | none => 0

/-- `system1_record.get('widget_clicks', 0)` on an optional lookup result. -/
def s1WidgetClicksOf (o : Option S1Record) : ℤ :=
  match o with | some r => r.widget_clicks | none => 0

/-- `system1_record.get('widget_searches', 0)` on an optional lookup result. -/
def s1WidgetSearchesOf (o : Option S1Record) : ℤ :=
  match o with | some r => r.widget_searches | none => 0

/-- Revenue of the System1 lookup at a key (0 when the key is absent). -/
def revenueAt (s1 : List S1Record) (k : String × String) : ℚ :=
  s1RevenueOf (s1lookup s1 k)

/-- The key is matched: a cost group exists at it. -/
def classMatched (meta : List CostRecord) (k : String × String) : Prop :=
  k ∈ groupKeys meta

/-- Unmatched, positive revenue, placeholder/non-numeric id:
    a tracking-failure orphan. -/
def classTrackingOrphan (meta : List CostRecord) (s1 : List S1Record)
    (k : String × String) : Prop :=
  k ∉ groupKeys meta ∧ 0 < revenueAt s1 k ∧ isTrackingIssue k.1 = true

/-- Unmatched, positive revenue, purely numeric non-placeholder id:
    a legitimate orphan. -/
def classLegitimateOrphan (meta : List CostRecord) (s1 : List S1Record)
    (k : String × String) : Prop :=
  k ∉ groupKeys meta ∧ 0 < revenueAt s1 k ∧ isLegitimate k.1 = true

/-- Unmatched with non-positive revenue: silently discarded. -/
def classDiscarded (meta : List CostRecord) (s1 : List S1Record)
    (k : String × String) : Prop :=
  k ∉ groupKeys meta ∧ revenueAt s1 k ≤ 0

/-- The derived-field contract of a MergedRecord: `profit`, `roas`,
    `widget_ctr` and `rpc` agree with the record's own stored
    `spend`/`revenue`/`link_clicks`/`widget_clicks`. -/
def mergedInvariant (r : MergedRecord) : Prop :=
  r.profit = r.revenue - r.spend ∧
  r.roas = (if r.spend > 0 then r.revenue / r.spend - 1 else 0) ∧
  r.widget_ctr =
    (if r.link_clicks > 0 then (r.widget_clicks : ℚ) / (r.link_clicks : ℚ) else 0) ∧
  r.rpc = (if r.widget_clicks > 0 then r.revenue / (r.widget_clicks : ℚ) else 0)

/-! ## Concrete records for the spec's scenarios -/

/-- Scenario ad with 60 link clicks under ad set 42 on 2025-01-01. -/
def costA : CostRecord :=
  ⟨"c1", "Campaign", "42", "BRA_adset", "a1", "Ad 1", "2025-01-01", 10, 60, 1, 2, 0, 0⟩

/-- Scenario ad with 40 link clicks under ad set 42 on 2025-01-01. -/
def costB : CostRecord :=
  ⟨"c1", "Campaign", "42", "BRA_adset", "a2", "Ad 2", "2025-01-01", 5, 40, 1, 2, 0, 0⟩

/-- Scenario ad with zero link clicks under ad set 7 on 2025-01-01. -/
def costZero : CostRecord :=
  ⟨"c1", "Campaign", "7", "Other adset", "a3", "Ad 3", "2025-01-01", 3, 0, 0, 0, 0, 0⟩

/-- Scenario System1 aggregate for ad set 42: revenue 100, engagement_a 10. -/
def aggS : S1Record := ⟨"42", "2025-01-01", 100, 10, 0⟩

/-- Scenario tracking-failure orphan: unresolved template token, revenue 50. -/
def orphanS : S1Record := ⟨"\x7b\x7badset.id\x7d\x7d", "2025-01-01", 50, 3, 0⟩

/-- Scenario legitimate orphan: purely numeric foreign id, revenue 25. -/
def legitS : S1Record := ⟨"99999", "2025-01-02", 25, 5, 0⟩

/-- A merged record with spend 1 and revenue 2, for the summary ratio. -/
def sampleMerged : MergedRecord :=
  ⟨"c", "c", "42", "Some adset", "a", "a", "OTHER", "2025-01-01",
   1, 2, 1, 1, 10, 0, 0, 0, 0, 0, 0, 0, 0⟩

/-- A cost record whose ad set name matches a caller rule the code ignores. -/
def costUS : CostRecord :=
  ⟨"c1", "Campaign", "43", "US_adset", "a4", "Ad 4", "2025-01-01", 10, 60, 1, 2, 0, 0⟩

theorem aggFold_revenue (l : List RevenueRecord)
    (m : (String × String) → RevenueAggregate) (k : String × String) :
    (aggFold l m k).revenue =
      (m k).revenue + ((l.filter (fun r => recKey r = k)).map (·.revenue)).sum := by
  induction l generalizing m with
  | nil => simp [aggFold]
  | cons r rs ih =>
      by_cases h : recKey r = k
      · simp [aggFold, ih, h, addHourly, add_assoc]
      · simp [aggFold, ih, h, Ne.symm h]

theorem aggFold_widget_clicks (l : List RevenueRecord)
    (m : (String × String) → RevenueAggregate) (k : String × String) :
    (aggFold l m k).widget_clicks =
      (m k).widget_clicks + ((l.filter (fun r => recKey r = k)).map (·.widget_clicks)).sum := by
  induction l generalizing m with
  | nil => simp [aggFold]
  | cons r rs ih =>
      by_cases h : recKey r = k
      · simp [aggFold, ih, h, addHourly, add_assoc]
      · simp [aggFold, ih, h, Ne.symm h]

theorem aggFold_widget_searches (l : List RevenueRecord)
    (m : (String × String) → RevenueAggregate) (k : String × String) :
    (aggFold l m k).widget_searches =
      (m k).widget_searches + ((l.filter (fun r => recKey r = k)).map (·.widget_searches)).sum := by
  induction l generalizing m with
  | nil => simp [aggFold]
  | cons r rs ih =>
      by_cases h : recKey r = k
      · simp [aggFold, ih, h, addHourly, add_assoc]
      · simp [aggFold, ih, h, Ne.symm h]

/-- **C6**: revenue aggregation is pure per-key summation with no filtering —
    the aggregate at every `(foreign_entity_id, date)` key sums `revenue`,
    `engagement_a` (widget_clicks) and `engagement_b` (widget_searches)
    over exactly the input records carrying that key, so no record is
    discarded or overwritten — and the empty input yields the empty mapping. -/
theorem aggregation_sums_per_key :
    (∀ (l : List RevenueRecord) (k : String × String),
      (aggregate_hourly_data l k).revenue =
          ((l.filter (fun r => recKey r = k)).map (·.revenue)).sum ∧
      (aggregate_hourly_data l k).widget_clicks =
          ((l.filter (fun r => recKey r = k)).map (·.widget_clicks)).sum ∧
      (aggregate_hourly_data l k).widget_searches =
          ((l.filter (fun r => recKey r = k)).map (·.widget_searches)).sum) ∧
    aggKeys [] = [] ∧
    (∀ k, aggregate_hourly_data [] k = emptyAggregate) := by
  refine ⟨fun l k => ?_, rfl, fun k => rfl⟩
  refine ⟨?_, ?_, ?_⟩
  · simpa [emptyAggregate] using aggFold_revenue l (fun _ => emptyAggregate) k
  · simpa [emptyAggregate] using aggFold_widget_clicks l (fun _ => emptyAggregate) k
  · simpa [emptyAggregate] using aggFold_widget_searches l (fun _ => emptyAggregate) k

/-! ## Helper lemmas -/

theorem pytrunc_nonneg_eq_floor (q : ℚ) (h : 0 ≤ q) : pytrunc q = Int.floor q := by
  unfold pytrunc
  simp [not_lt.mpr h]

theorem pytrunc_zero : pytrunc 0 = 0 := by
  unfold pytrunc
  norm_num

theorem mkMerged_revenue (s1rec : Option S1Record) (tc : ℕ)
    (k : String × String) (m : CostRecord) :
    (mkMerged s1rec tc k m).revenue =
      s1RevenueOf s1rec * (if tc > 0 then (m.link_clicks : ℚ) / (tc : ℚ) else 0) := rfl

theorem mkMerged_widget_clicks (s1rec : Option S1Record) (tc : ℕ)
    (k : String × String) (m : CostRecord) :
    (mkMerged s1rec tc k m).widget_clicks =
      pytrunc ((s1WidgetClicksOf s1rec : ℚ) *
        (if tc > 0 then (m.link_clicks : ℚ) / (tc : ℚ) else 0)) := rfl

theorem mkMerged_widget_searches (s1rec : Option S1Record) (tc : ℕ)
    (k : String × String) (m : CostRecord) :
    (mkMerged s1rec tc k m).widget_searches =
      pytrunc ((s1WidgetSearchesOf s1rec : ℚ) *
        (if tc > 0 then (m.link_clicks : ℚ) / (tc : ℚ) else 0)) := rfl

theorem list_sum_natCast {α : Type} (l : List α) (w : α → ℕ) :
    (l.map fun a => ((w a : ℕ) : ℚ)).sum = (((l.map w).sum : ℕ) : ℚ) := by
  induction l with
  | nil => simp
  | cons a t ih => simp [ih]

theorem list_sum_intCast {α : Type} (l : List α) (w : α → ℤ) :
    (l.map fun a => ((w a : ℤ) : ℚ)).sum = (((l.map w).sum : ℤ) : ℚ) := by
  induction l with
  | nil => simp
  | cons a t ih => simp [ih]

/-- Click shares over a list with positive total weight sum to 1. -/
theorem share_sum {α : Type} (l : List α) (w : α → ℕ) (hT : 0 < (l.map w).sum) :
    (l.map fun a => (w a : ℚ) / (((l.map w).sum : ℕ) : ℚ)).sum = 1 := by
  have hne : (((l.map w).sum : ℕ) : ℚ) ≠ 0 := by
    exact_mod_cast Nat.pos_iff_ne_zero.mp hT
  calc (l.map fun a => (w a : ℚ) / (((l.map w).sum : ℕ) : ℚ)).sum
      = (l.map fun a => (w a : ℚ) * ((((l.map w).sum : ℕ) : ℚ))⁻¹).sum := by
        simp only [div_eq_mul_inv]
    _ = (l.map fun a => (w a : ℚ)).sum * ((((l.map w).sum : ℕ) : ℚ))⁻¹ :=
        List.sum_map_mul_right l _ _
    _ = (((l.map w).sum : ℕ) : ℚ) * ((((l.map w).sum : ℕ) : ℚ))⁻¹ := by
        rw [list_sum_natCast]
    _ = 1 := mul_inv_cancel₀ hne

/-- Truncated shares of a nonnegative integer total never exceed the total. -/
theorem trunc_share_sum_le {α : Type} (l : List α) (w : α → ℕ) (E : ℤ)
    (hT : 0 < (l.map w).sum) (hE : 0 ≤ E) :
    (l.map fun a =>
      pytrunc ((E : ℚ) * ((w a : ℚ) / (((l.map w).sum : ℕ) : ℚ)))).sum ≤ E := by
  have hTpos : (0 : ℚ) < (((l.map w).sum : ℕ) : ℚ) := by exact_mod_cast hT
  have hle : ∀ a ∈ l,
      ((pytrunc ((E : ℚ) * ((w a : ℚ) / (((l.map w).sum : ℕ) : ℚ))) : ℤ) : ℚ) ≤
        (E : ℚ) * ((w a : ℚ) / (((l.map w).sum : ℕ) : ℚ)) := by
    intro a _
    have hx : 0 ≤ (E : ℚ) * ((w a : ℚ) / (((l.map w).sum : ℕ) : ℚ)) :=
      mul_nonneg (by exact_mod_cast hE)
        (div_nonneg (by positivity) hTpos.le)
    rw [pytrunc_nonneg_eq_floor _ hx]
    exact Int.floor_le _
  have h2 : (((l.map fun a =>
        pytrunc ((E : ℚ) * ((w a : ℚ) / (((l.map w).sum : ℕ) : ℚ)))).sum : ℤ) : ℚ) ≤
      (l.map fun a => (E : ℚ) * ((w a : ℚ) / (((l.map w).sum : ℕ) : ℚ))).sum := by
    rw [← list_sum_intCast]
    exact List.sum_le_sum hle
  have h3 : (l.map fun a => (E : ℚ) * ((w a : ℚ) / (((l.map w).sum : ℕ) : ℚ))).sum
      = (E : ℚ) := by
    rw [List.sum_map_mul_left, share_sum l w hT, mul_one]
  exact_mod_cast h2.trans (le_of_eq h3)

theorem mkMerged_holds_invariant (s1rec : Option S1Record) (tc : ℕ)
    (k : String × String) (m : CostRecord) :
    mergedInvariant (mkMerged s1rec tc k m) := by
  unfold mergedInvariant
  exact ⟨rfl, rfl, rfl, rfl⟩

theorem addOrphanShare_holds_invariant (orev : ℚ) (owc ows : ℤ) (share : ℚ)
    (r : MergedRecord) : mergedInvariant (addOrphanShare orev owc ows share r) := by
  unfold mergedInvariant
  exact ⟨rfl, rfl, rfl, rfl⟩

theorem mkLegitOrphan_holds_invariant (r : S1Record) :
    mergedInvariant (mkLegitOrphan r) := by
  unfold mergedInvariant mkLegitOrphan
  refine ⟨by simp, by simp, by simp, rfl⟩

theorem redistOne_preserves_invariant (meta : List CostRecord) (s1 : List S1Record)
    (l : List MergedRecord) (r : MergedRecord) (h : mergedInvariant r) :
    mergedInvariant (redistOne meta s1 l r) := by
  unfold redistOne
  split
  · exact addOrphanShare_holds_invariant _ _ _ _ _
  · exact h

theorem mem_attributed {meta : List CostRecord} {s1 : List S1Record}
    {r : MergedRecord} (hr : r ∈ attributedRecords meta s1) :
    ∃ k m, m ∈ groupAds meta k ∧
      r = mkMerged (s1lookup s1 k) (groupTotalClicks meta k) k m := by
  unfold attributedRecords at hr
  rw [List.mem_flatMap] at hr
  obtain ⟨k, _, hr⟩ := hr
  rw [List.mem_map] at hr
  obtain ⟨m, hm, rfl⟩ := hr
  exact ⟨k, m, hm, rfl⟩

theorem merge_output_invariant {meta : List CostRecord} {s1 : List S1Record}
    {r : MergedRecord} (hr : r ∈ merge_campaign_data meta s1) :
    mergedInvariant r := by
  unfold merge_campaign_data at hr
  rw [List.mem_append] at hr
  rcases hr with hr | hr
  · unfold redistribute at hr
    split at hr
    · rw [List.mem_map] at hr
      obtain ⟨r', hr', rfl⟩ := hr
      obtain ⟨k, m, _, rfl⟩ := mem_attributed hr'
      exact redistOne_preserves_invariant _ _ _ _ (mkMerged_holds_invariant _ _ _ _)
    · obtain ⟨k, m, _, rfl⟩ := mem_attributed hr
      exact mkMerged_holds_invariant _ _ _ _
  · unfold legitOrphanRecords at hr
    rw [List.mem_map] at hr
    obtain ⟨e, _, rfl⟩ := hr
    exact mkLegitOrphan_holds_invariant e

theorem groupTotalClicks_eq (meta : List CostRecord) (k : String × String) :
    groupTotalClicks meta k = ((groupAds meta k).map (fun m => m.link_clicks)).sum := rfl

/-- **C1**: for a cost group with positive total click weight matched to a
    revenue aggregate, attributed revenue over the group's emitted
    MergedRecords sums exactly to the aggregate's revenue, and the floor-
    truncated attributed integer engagement counts sum to at most the
    aggregate's counts; on the spec scenario (clicks 60/40, revenue 100,
    engagement_a 10) the attributed revenues are 60 and 40 and the
    attributed engagement_a values are 6 and 4. -/
theorem attribution_conserves_group_revenue (meta : List CostRecord)
    (agg : S1Record) (k : String × String)
    (hT : 0 < groupTotalClicks meta k)
    (hwc : 0 ≤ agg.widget_clicks) (hws : 0 ≤ agg.widget_searches) :
    (((groupAds meta k).map
        (fun m => (mkMerged (some agg) (groupTotalClicks meta k) k m).revenue)).sum
      = agg.revenue) ∧
    (((groupAds meta k).map
        (fun m => (mkMerged (some agg) (groupTotalClicks meta k) k m).widget_clicks)).sum
      ≤ agg.widget_clicks) ∧
    (((groupAds meta k).map
        (fun m => (mkMerged (some agg) (groupTotalClicks meta k) k m).widget_searches)).sum
      ≤ agg.widget_searches) ∧
    (attributedRecords [costA, costB] [aggS]).map (·.revenue) = [60, 40] ∧
    (attributedRecords [costA, costB] [aggS]).map (·.widget_clicks) = [6, 4] := by
  refine ⟨?_, ?_, ?_, ?_, ?_⟩
  · have hcong : ∀ m ∈ groupAds meta k,
        (mkMerged (some agg) (groupTotalClicks meta k) k m).revenue =
          agg.revenue * ((m.link_clicks : ℚ) / ((groupTotalClicks meta k : ℕ) : ℚ)) := by
      intro m _
      rw [mkMerged_revenue]
      simp only [s1RevenueOf, gt_iff_lt, hT, if_true]
    have hs := share_sum (groupAds meta k) (fun m => m.link_clicks) hT
    simp only [← groupTotalClicks_eq] at hs
    rw [List.map_congr_left hcong, List.sum_map_mul_left, hs, mul_one]
  · have hcong : ∀ m ∈ groupAds meta k,
        (mkMerged (some agg) (groupTotalClicks meta k) k m).widget_clicks =
          pytrunc ((agg.widget_clicks : ℚ) *
            ((m.link_clicks : ℚ) / ((groupTotalClicks meta k : ℕ) : ℚ))) := by
      intro m _
      rw [mkMerged_widget_clicks]
      simp only [s1WidgetClicksOf, gt_iff_lt, hT, if_true]
    have ht := trunc_share_sum_le (groupAds meta k) (fun m => m.link_clicks)
      agg.widget_clicks hT hwc
    simp only [← groupTotalClicks_eq] at ht
    rw [List.map_congr_left hcong]
    exact ht
  · have hcong : ∀ m ∈ groupAds meta k,
        (mkMerged (some agg) (groupTotalClicks meta k) k m).widget_searches =
          pytrunc ((agg.widget_searches : ℚ) *
            ((m.link_clicks : ℚ) / ((groupTotalClicks meta k : ℕ) : ℚ))) := by
      intro m _
      rw [mkMerged_widget_searches]
      simp only [s1WidgetSearchesOf, gt_iff_lt, hT, if_true]
    have ht := trunc_share_sum_le (groupAds meta k) (fun m => m.link_clicks)
      agg.widget_searches hT hws
    simp only [← groupTotalClicks_eq] at ht
    rw [List.map_congr_left hcong]
    exact ht
  · simp [attributedRecords, groupKeys, groupAds, groupKey, groupTotalClicks,
      s1lookup, s1Key, mkMerged, costA, costB, aggS]
    norm_num
  · simp [attributedRecords, groupKeys, groupAds, groupKey, groupTotalClicks,
      s1lookup, s1Key, mkMerged, costA, costB, aggS, pytrunc]
    norm_num

/-- Witness for C1's hypotheses: the spec scenario itself. -/
theorem attribution_conserves_group_revenue_witness :
    0 < groupTotalClicks [costA, costB] ("42", "2025-01-01") ∧
    (0 : ℤ) ≤ aggS.widget_clicks ∧
    ((groupAds [costA, costB] ("42", "2025-01-01")).map
        (fun m => (mkMerged (some aggS)
          (groupTotalClicks [costA, costB] ("42", "2025-01-01"))
          ("42", "2025-01-01") m).revenue)).sum = aggS.revenue := by
  have h1 : 0 < groupTotalClicks [costA, costB] ("42", "2025-01-01") := by
    simp [groupTotalClicks, groupAds, groupKey, costA, costB]
  have h2 : (0 : ℤ) ≤ aggS.widget_clicks := by simp [aggS]
  have h3 : (0 : ℤ) ≤ aggS.widget_searches := by simp [aggS]
  exact ⟨h1, h2,
    (attribution_conserves_group_revenue [costA, costB] aggS
      ("42", "2025-01-01") h1 h2 h3).1⟩

/-- **C7**: a cost group whose total click weight is zero gives every member
    share 0, hence attributed revenue 0 and attributed engagement counts 0,
    even when the matched revenue aggregate has positive revenue. -/
theorem zero_weight_group_attributes_nothing (meta : List CostRecord)
    (agg : S1Record) (k : String × String) (m : CostRecord)
    (hT : groupTotalClicks meta k = 0) (hm : m ∈ groupAds meta k) :
    (mkMerged (some agg) (groupTotalClicks meta k) k m).revenue = 0 ∧
    (mkMerged (some agg) (groupTotalClicks meta k) k m).widget_clicks = 0 ∧
    (mkMerged (some agg) (groupTotalClicks meta k) k m).widget_searches = 0 := by
  refine ⟨?_, ?_, ?_⟩
  · rw [mkMerged_revenue, hT]
    simp
  · rw [mkMerged_widget_clicks, hT]
    simp [pytrunc_zero]
  · rw [mkMerged_widget_searches, hT]
    simp [pytrunc_zero]

/-- Witness for C7: a one-ad group with zero clicks and a positive-revenue
    aggregate attributes zero revenue. -/
theorem zero_weight_group_attributes_nothing_witness :
    groupTotalClicks [costZero] ("7", "2025-01-01") = 0 ∧
    costZero ∈ groupAds [costZero] ("7", "2025-01-01") ∧
    (mkMerged (some aggS) (groupTotalClicks [costZero] ("7", "2025-01-01"))
      ("7", "2025-01-01") costZero).revenue = 0 := by
  have h1 : groupTotalClicks [costZero] ("7", "2025-01-01") = 0 := by decide
  have h2 : costZero ∈ groupAds [costZero] ("7", "2025-01-01") := by decide
  exact ⟨h1, h2,
    (zero_weight_group_attributes_nothing [costZero] aggS
      ("7", "2025-01-01") costZero h1 h2).1⟩

theorem placeholder_tokens_not_digit :
    ∀ s ∈ placeholderTokens, pyIsdigit s = false := by decide

/-- **C3**: every key of the revenue lookup falls into exactly one of the
    four classes: matched, tracking-failure orphan, legitimate orphan, or
    discarded non-positive — no key is double-counted or skipped. -/
theorem orphan_classification_total (meta : List CostRecord)
    (s1 : List S1Record) (k : String × String) (hk : k ∈ s1Keys s1) :
    (classMatched meta k ∨ classTrackingOrphan meta s1 k ∨
      classLegitimateOrphan meta s1 k ∨ classDiscarded meta s1 k) ∧
    ¬(classMatched meta k ∧ classTrackingOrphan meta s1 k) ∧
    ¬(classMatched meta k ∧ classLegitimateOrphan meta s1 k) ∧
    ¬(classMatched meta k ∧ classDiscarded meta s1 k) ∧
    ¬(classTrackingOrphan meta s1 k ∧ classLegitimateOrphan meta s1 k) ∧
    ¬(classTrackingOrphan meta s1 k ∧ classDiscarded meta s1 k) ∧
    ¬(classLegitimateOrphan meta s1 k ∧ classDiscarded meta s1 k) := by
  unfold classMatched classTrackingOrphan classLegitimateOrphan classDiscarded
  refine ⟨?_, ?_, ?_, ?_, ?_, ?_, ?_⟩
  · by_cases hm : k ∈ groupKeys meta
    · exact Or.inl hm
    · by_cases hrev : 0 < revenueAt s1 k
      · by_cases hd : pyIsdigit k.1 = true
        · refine Or.inr (Or.inr (Or.inl ⟨hm, hrev, ?_⟩))
          have hp : k.1 ∉ placeholderTokens := by
            intro hmem
            rw [placeholder_tokens_not_digit k.1 hmem] at hd
            exact Bool.false_ne_true hd
          simp [isLegitimate, hd, hp]
        · refine Or.inr (Or.inl ⟨hm, hrev, ?_⟩)
          simp [isTrackingIssue, hd]
      · exact Or.inr (Or.inr (Or.inr ⟨hm, not_lt.mp hrev⟩))
  · rintro ⟨hm, hnm, -, -⟩
    exact hnm hm
  · rintro ⟨hm, hnm, -, -⟩
    exact hnm hm
  · rintro ⟨hm, hnm, -⟩
    exact hnm hm
  · rintro ⟨⟨-, -, ht⟩, ⟨-, -, hl⟩⟩
    simp only [isTrackingIssue, Bool.or_eq_true, decide_eq_true_eq,
      Bool.not_eq_true'] at ht
    simp only [isLegitimate, Bool.and_eq_true, Bool.not_eq_true',
      decide_eq_false_iff_not] at hl
    rcases ht with hp | hd
    · exact hl.2 hp
    · rw [hl.1] at hd
      exact absurd hd (by simp)
  · rintro ⟨⟨-, hrev, -⟩, ⟨-, hle⟩⟩
    exact absurd hle (not_le.mpr hrev)
  · rintro ⟨⟨-, hrev, -⟩, ⟨-, hle⟩⟩
    exact absurd hle (not_le.mpr hrev)

/-- Witness for C3: the scenario aggregate key is classified (here: matched
    against the scenario cost group). -/
theorem orphan_classification_total_witness :
    ("42", "2025-01-01") ∈ s1Keys [aggS] ∧
    (classMatched [costA, costB] ("42", "2025-01-01") ∨
      classTrackingOrphan [costA, costB] [aggS] ("42", "2025-01-01") ∨
      classLegitimateOrphan [costA, costB] [aggS] ("42", "2025-01-01") ∨
      classDiscarded [costA, costB] [aggS] ("42", "2025-01-01")) := by
  have hk : ("42", "2025-01-01") ∈ s1Keys [aggS] := by decide
  exact ⟨hk, (orphan_classification_total [costA, costB] [aggS] _ hk).1⟩

/-- C4 counterexample: on a record with spend 1 and revenue 2 the summary's
    average ROAS is 2, not 2 - 1 — the code does not subtract 1. -/
theorem avg_roas_minus_one_counterexample :
    avgRoas [sampleMerged] ≠
      totalRevenue [sampleMerged] / totalSpend [sampleMerged] - 1 := by
  simp [avgRoas, totalRevenue, totalSpend, sampleMerged]
  norm_num

/-- **C4** (amended): the summary reporter computes the weighted average ROAS
    of the final MergedRecord collection as total_revenue/total_spend — a
    revenue multiple, with no 1 subtracted — and returns zero when total
    spend is zero. -/
theorem avg_roas_formula (l : List MergedRecord) :
    (0 < totalSpend l → avgRoas l = totalRevenue l / totalSpend l) ∧
    (totalSpend l = 0 → avgRoas l = 0) := by
  constructor
  · intro h
    simp [avgRoas, h]
  · intro h
    simp [avgRoas, h]

/-- Witness for C4's amended statement at a record with positive spend. -/
theorem avg_roas_formula_witness :
    0 < totalSpend [sampleMerged] ∧
    avgRoas [sampleMerged] = totalRevenue [sampleMerged] / totalSpend [sampleMerged] := by
  have h : 0 < totalSpend [sampleMerged] := by
    simp [totalSpend, sampleMerged]
  exact ⟨h, (avg_roas_formula [sampleMerged]).1 h⟩

/-- C5 counterexample: the merge ignores a caller-supplied rule list — for a
    record whose ad set name matches the caller rule ("US_", "US"), the code
    emits tag "OTHER" while the spec's configurable classifier yields "US". -/
theorem region_rules_not_caller_supplied :
    (mkMerged none 0 ("43", "2025-01-01") costUS).market ≠
      classifyRegion [("US_", "US")] costUS.ad_set_name := by decide

/-- **C5** (amended): the region/market tag of every attributed MergedRecord
    is derived from the entity (ad set) name by the fixed, hard-coded ordered
    substring rules [("BRA_", "BR"), ("MEX_", "MX")] with default "OTHER"
    (first match wins) — i.e. the spec's rule-list classifier instantiated at
    that one hard-coded list, not an externally configurable parameter. -/
theorem merged_market_fixed_rules (meta : List CostRecord) (s1 : List S1Record)
    (r : MergedRecord) (hr : r ∈ attributedRecords meta s1) :
    r.market = classifyRegion [("BRA_", "BR"), ("MEX_", "MX")] r.ad_set_name := by
  obtain ⟨k, m, _, rfl⟩ := mem_attributed hr
  have hname : (mkMerged (s1lookup s1 k) (groupTotalClicks meta k) k m).ad_set_name
      = m.ad_set_name := rfl
  have hmarket : (mkMerged (s1lookup s1 k) (groupTotalClicks meta k) k m).market
      = marketOf m.ad_set_name := rfl
  rw [hname, hmarket]
  simp [marketOf, classifyRegion]

/-- Witness for C5's amended statement on the scenario cost record. -/
theorem merged_market_fixed_rules_witness :
    (mkMerged (s1lookup [] ("42", "2025-01-01"))
        (groupTotalClicks [costA] ("42", "2025-01-01")) ("42", "2025-01-01") costA)
      ∈ attributedRecords [costA] [] ∧
    (mkMerged (s1lookup [] ("42", "2025-01-01"))
        (groupTotalClicks [costA] ("42", "2025-01-01")) ("42", "2025-01-01") costA).market
      = classifyRegion [("BRA_", "BR"), ("MEX_", "MX")]
          (mkMerged (s1lookup [] ("42", "2025-01-01"))
            (groupTotalClicks [costA] ("42", "2025-01-01")) ("42", "2025-01-01") costA).ad_set_name := by
  have hmem : (mkMerged (s1lookup [] ("42", "2025-01-01"))
      (groupTotalClicks [costA] ("42", "2025-01-01")) ("42", "2025-01-01") costA)
      ∈ attributedRecords [costA] [] := by
    simp [attributedRecords, groupKeys, groupAds, groupKey, costA]
  exact ⟨hmem, merged_market_fixed_rules [costA] [] _ hmem⟩

/-- **C8**: every record of the final merged output — attributed, mutated by
    the orphan redistributor, or emitted as a legitimate orphan — satisfies
    profit = revenue - spend, roas = revenue/spend - 1 if spend > 0 else 0,
    widget_ctr = widget_clicks/link_clicks if link_clicks > 0 else 0, and
    rpc = revenue/widget_clicks if widget_clicks > 0 else 0 on its own
    stored fields. -/
theorem merged_derived_fields_consistent (meta : List CostRecord)
    (s1 : List S1Record) (r : MergedRecord)
    (hr : r ∈ merge_campaign_data meta s1) :
    r.profit = r.revenue - r.spend ∧
    r.roas = (if r.spend > 0 then r.revenue / r.spend - 1 else 0) ∧
    r.widget_ctr =
      (if r.link_clicks > 0 then (r.widget_clicks : ℚ) / (r.link_clicks : ℚ) else 0) ∧
    r.rpc = (if r.widget_clicks > 0 then r.revenue / (r.widget_clicks : ℚ) else 0) := by
  have h := merge_output_invariant hr
  unfold mergedInvariant at h
  exact h

/-- Witness for C8: the single output record of a one-ad merge. -/
theorem merged_derived_fields_consistent_witness :
    (mkMerged (s1lookup [] ("42", "2025-01-01"))
        (groupTotalClicks [costA] ("42", "2025-01-01")) ("42", "2025-01-01") costA)
      ∈ merge_campaign_data [costA] [] ∧
    (mkMerged (s1lookup [] ("42", "2025-01-01"))
        (groupTotalClicks [costA] ("42", "2025-01-01")) ("42", "2025-01-01") costA).profit
      = (mkMerged (s1lookup [] ("42", "2025-01-01"))
          (groupTotalClicks [costA] ("42", "2025-01-01")) ("42", "2025-01-01") costA).revenue
        - (mkMerged (s1lookup [] ("42", "2025-01-01"))
            (groupTotalClicks [costA] ("42", "2025-01-01")) ("42", "2025-01-01") costA).spend := by
  have hmem : (mkMerged (s1lookup [] ("42", "2025-01-01"))
      (groupTotalClicks [costA] ("42", "2025-01-01")) ("42", "2025-01-01") costA)
      ∈ merge_campaign_data [costA] [] := by
    simp [merge_campaign_data, redistribute, totalOrphanRevenue, orphanRecords,
      lookupEntries, s1Keys, legitOrphanRecords, attributedRecords, groupKeys,
      groupAds, groupKey, costA]
  exact ⟨hmem, (merged_derived_fields_consistent [costA] [] _ hmem).1⟩

/-- **C9**: every ratio of the merge core and summary substitutes 0 for a
    zero denominator: roas when spend is 0, widget_ctr when link_clicks is 0,
    rpc when widget_clicks is 0, the summary's average ROAS when total spend
    is 0, and the attribution share (hence attributed revenue) when a group's
    total clicks are 0 — so no division is taken at a zero denominator. -/
theorem division_guards (meta : List CostRecord) (s1 : List S1Record)
    (l : List MergedRecord) (r : MergedRecord)
    (hr : r ∈ merge_campaign_data meta s1) :
    (r.spend ≤ 0 → r.roas = 0) ∧
    (r.link_clicks = 0 → r.widget_ctr = 0) ∧
    (r.widget_clicks ≤ 0 → r.rpc = 0) ∧
    (totalSpend l ≤ 0 → avgRoas l = 0) ∧
    (∀ (s1rec : Option S1Record) (k : String × String) (m : CostRecord),
      (mkMerged s1rec 0 k m).revenue = 0) := by
  have h := merge_output_invariant hr
  unfold mergedInvariant at h
  obtain ⟨-, hroas, hctr, hrpc⟩ := h
  refine ⟨?_, ?_, ?_, ?_, ?_⟩
  · intro hs
    rw [hroas, if_neg (not_lt.mpr hs)]
  · intro hlc
    rw [hctr]
    simp [hlc]
  · intro hwc
    rw [hrpc, if_neg (not_lt.mpr hwc)]
  · intro hts
    unfold avgRoas
    rw [if_neg (not_lt.mpr hts)]
  · intro s1rec k m
    rw [mkMerged_revenue]
    simp

/-- Witness for C9: a one-ad merge output record and the empty summary. -/
theorem division_guards_witness :
    (mkMerged (s1lookup [] ("42", "2025-01-01"))
        (groupTotalClicks [costB] ("42", "2025-01-01")) ("42", "2025-01-01") costB)
      ∈ merge_campaign_data [costB] [] ∧
    avgRoas [] = 0 := by
  have hmem : (mkMerged (s1lookup [] ("42", "2025-01-01"))
      (groupTotalClicks [costB] ("42", "2025-01-01")) ("42", "2025-01-01") costB)
      ∈ merge_campaign_data [costB] [] := by
    simp [merge_campaign_data, redistribute, totalOrphanRevenue, orphanRecords,
      lookupEntries, s1Keys, legitOrphanRecords, attributedRecords, groupKeys,
      groupAds, groupKey, costB]
  exact ⟨hmem,
    (division_guards [costB] [] [] _ hmem).2.2.2.1 (by simp [totalSpend])⟩

/-- **C10**: legitimate-orphan records are appended after the redistribution
    pass, so they never receive redistributed tracking-failure revenue; every
    legitimate-orphan record in the final output has spend 0, link_clicks 0,
    revenue equal to its source aggregate's revenue and profit equal to that
    revenue. -/
theorem legit_orphans_not_redistributed (meta : List CostRecord)
    (s1 : List S1Record) :
    merge_campaign_data meta s1 =
      redistribute meta s1 (attributedRecords meta s1) ++
        legitOrphanRecords meta s1 ∧
    (∀ e ∈ lookupEntries s1,
      s1Key e ∉ groupKeys meta → 0 < e.revenue →
      isLegitimate e.ad_group_id = true →
        mkLegitOrphan e ∈ legitOrphanRecords meta s1) ∧
    (∀ r ∈ legitOrphanRecords meta s1,
      r ∈ merge_campaign_data meta s1 ∧ r.spend = 0 ∧ r.link_clicks = 0 ∧
      r.profit = r.revenue ∧
      ∃ e ∈ lookupEntries s1,
        s1Key e ∉ groupKeys meta ∧ 0 < e.revenue ∧
        isLegitimate e.ad_group_id = true ∧ r.revenue = e.revenue) := by
  refine ⟨rfl, ?_, ?_⟩
  · intro e he hnm hrev hleg
    unfold legitOrphanRecords
    rw [List.mem_map]
    refine ⟨e, ?_, rfl⟩
    rw [List.mem_filter]
    refine ⟨he, ?_⟩
    simp [hnm, hrev, hleg]
  · intro r hr
    have hmem : r ∈ merge_campaign_data meta s1 := by
      unfold merge_campaign_data
      exact List.mem_append_right _ hr
    unfold legitOrphanRecords at hr
    rw [List.mem_map] at hr
    obtain ⟨e, he, rfl⟩ := hr
    rw [List.mem_filter] at he
    obtain ⟨he, hcond⟩ := he
    simp only [Bool.and_eq_true, decide_eq_true_eq] at hcond
    obtain ⟨⟨hnm, hrev⟩, hleg⟩ := hcond
    exact ⟨hmem, rfl, rfl, rfl, e, he, hnm, hrev, hleg, rfl⟩

/-- Witness for C10: the scenario legitimate orphan (id "99999") is emitted
    with its aggregate's revenue. -/
theorem legit_orphans_not_redistributed_witness :
    legitS ∈ lookupEntries [legitS] ∧
    s1Key legitS ∉ groupKeys [costA] ∧
    0 < legitS.revenue ∧
    isLegitimate legitS.ad_group_id = true ∧
    mkLegitOrphan legitS ∈ legitOrphanRecords [costA] [legitS] := by
  have h1 : legitS ∈ lookupEntries [legitS] := by decide
  have h2 : s1Key legitS ∉ groupKeys [costA] := by decide
  have h3 : 0 < legitS.revenue := by decide
  have h4 : isLegitimate legitS.ad_group_id = true := by decide
  exact ⟨h1, h2, h3, h4,
    (legit_orphans_not_redistributed [costA] [legitS]).2.1 legitS h1 h2 h3 h4⟩

theorem addOrphanShare_revenue (orev : ℚ) (owc ows : ℤ) (share : ℚ)
    (r : MergedRecord) :
    (addOrphanShare orev owc ows share r).revenue = r.revenue + orev * share := rfl

/-- Revenue added to one record by its date's redistribution pass. -/
theorem redistOne_revenue_delta (meta : List CostRecord) (s1 : List S1Record)
    (l : List MergedRecord) (r : MergedRecord)
    (hd : r.date ∈ orphanDates meta s1) :
    (redistOne meta s1 l r).revenue - r.revenue =
      orphanRevenueOn meta s1 r.date *
        (if ((l.filter (fun x => x.date = r.date)).map (·.link_clicks)).sum > 0
          then (r.link_clicks : ℚ) /
            ((((l.filter (fun x => x.date = r.date)).map (·.link_clicks)).sum : ℕ) : ℚ)
          else 1 / (((l.filter (fun x => x.date = r.date)).length : ℕ) : ℚ)) := by
  unfold redistOne
  simp only [hd, if_true]
  simp only [addOrphanShare_revenue]
  rw [add_sub_cancel_left]

/-- **C2**: on every date carrying positive tracking-failure orphan revenue,
    the redistribution pass adds revenue summing exactly to that date's
    orphan revenue over the date's records (proportional to clicks when the
    date's total clicks are positive, equal shares — hence the full amount
    to a lone zero-click record — when they are zero); records on dates with
    no orphan revenue are unchanged, and a date with no records receives
    nothing (the orphan revenue is dropped). The spec scenario: a single
    zero-click record receives the full 50 of orphan revenue. -/
theorem redistribution_conserves_orphan_revenue (meta : List CostRecord)
    (s1 : List S1Record) (l : List MergedRecord) (d : String)
    (hd : d ∈ orphanDates meta s1) (hpos : 0 < totalOrphanRevenue meta s1) :
    (l.filter (fun r => r.date = d) ≠ [] →
      ((l.filter (fun r => r.date = d)).map
          (fun r => (redistOne meta s1 l r).revenue - r.revenue)).sum
        = orphanRevenueOn meta s1 d) ∧
    redistribute meta s1 l = l.map (redistOne meta s1 l) ∧
    (∀ r : MergedRecord, r.date ∉ orphanDates meta s1 → redistOne meta s1 l r = r) ∧
    (merge_campaign_data [costZero] [orphanS]).map (·.revenue) = [50] := by
  refine ⟨?_, ?_, ?_, ?_⟩
  · intro hne
    have hcong : ∀ r ∈ l.filter (fun r => r.date = d),
        (redistOne meta s1 l r).revenue - r.revenue =
          orphanRevenueOn meta s1 d *
            (if ((l.filter (fun x => x.date = d)).map (·.link_clicks)).sum > 0
              then (r.link_clicks : ℚ) /
                ((((l.filter (fun x => x.date = d)).map (·.link_clicks)).sum : ℕ) : ℚ)
              else 1 / (((l.filter (fun x => x.date = d)).length : ℕ) : ℚ)) := by
      intro r hrF
      rw [List.mem_filter] at hrF
      have hrd : r.date = d := by simpa using hrF.2
      have hd' : r.date ∈ orphanDates meta s1 := by
        rw [hrd]
        exact hd
      rw [redistOne_revenue_delta meta s1 l r hd', hrd]
    rw [List.map_congr_left hcong, List.sum_map_mul_left]
    by_cases htc : ((l.filter (fun x => x.date = d)).map (·.link_clicks)).sum > 0
    · simp only [htc, if_true]
      rw [share_sum (l.filter (fun x => x.date = d)) (fun x => x.link_clicks) htc,
        mul_one]
    · simp only [if_neg htc]
      rw [List.map_const', List.sum_replicate, nsmul_eq_mul]
      have hlen : (l.filter (fun r => r.date = d)).length ≠ 0 := by
        simpa [List.length_eq_zero] using hne
      have hlen' : (((l.filter (fun r => r.date = d)).length : ℕ) : ℚ) ≠ 0 :=
        Nat.cast_ne_zero.mpr hlen
      rw [mul_one_div, div_self hlen', mul_one]
  · unfold redistribute
    rw [if_pos hpos]
  · intro r hnd
    unfold redistOne
    rw [if_neg hnd]
  · simp [merge_campaign_data, redistribute, totalOrphanRevenue, orphanRecords,
      lookupEntries, s1Keys, s1Key, s1lookup, legitOrphanRecords,
      attributedRecords, groupKeys, groupAds, groupKey, groupTotalClicks,
      redistOne, orphanDates, orphanRevenueOn, orphanWidgetClicksOn,
      orphanWidgetSearchesOn, addOrphanShare, mkMerged, isTrackingIssue,
      isLegitimate, pyIsdigit, placeholderTokens, costZero, orphanS]

/-- Witness for C2: the spec's zero-click redistribution scenario. -/
theorem redistribution_conserves_orphan_revenue_witness :
    "2025-01-01" ∈ orphanDates [costZero] [orphanS] ∧
    0 < totalOrphanRevenue [costZero] [orphanS] ∧
    (merge_campaign_data [costZero] [orphanS]).map (·.revenue) = [50] := by
  have h1 : "2025-01-01" ∈ orphanDates [costZero] [orphanS] := by decide
  have h2 : 0 < totalOrphanRevenue [costZero] [orphanS] := by
    simp [totalOrphanRevenue, orphanRecords, lookupEntries, s1Keys, s1Key,
      s1lookup, groupKeys, groupKey, isTrackingIssue, pyIsdigit,
      placeholderTokens, costZero, orphanS]
  exact ⟨h1, h2,
    (redistribution_conserves_orphan_revenue [costZero] [orphanS]
      (attributedRecords [costZero] [orphanS]) "2025-01-01" h1 h2).2.2.2⟩
